import Mathlib

/-!
Verification development for the Agno financial report generator
(helper.py, agent.py, main.py, config.py).

The Python source is shallowly embedded:
* numeric values carried by pandas DataFrames are modelled as rationals
  (idealized exact arithmetic in place of IEEE floats);
* a DataFrame is a list of rows, each row an association list from column
  name to value (a missing key models a NaN / absent cell, which pandas
  mean/std skip);
* external collaborators (the pandas/fitz/docx readers, the pandas `std`,
  and the LLM narrative calls) are passed in as explicit parameters;
* fallible code returns `Except`.
-/

/-- A row of a DataFrame: column name ↦ rational value.  A key that is
absent models a missing/NaN cell (pandas skips those in mean/std). -/
abbrev Row := List (String × ℚ)

/-- A DataFrame, as produced by the extractors and by `pd.concat` with
`ignore_index=True`: an ordered list of rows. -/
abbrev DataFrame := List Row

instance {ε α : Type} [DecidableEq ε] [DecidableEq α] : DecidableEq (Except ε α) := fun a b =>
  match a, b with
  | .ok x, .ok y =>
    if h : x = y then isTrue (by rw [h]) else isFalse (by intro hc; cases hc; exact h rfl)
  | .error e, .error f =>
    if h : e = f then isTrue (by rw [h]) else isFalse (by intro hc; cases hc; exact h rfl)
  | .ok _, .error _ => isFalse (by intro hc; cases hc)
  | .error _, .ok _ => isFalse (by intro hc; cases hc)

/-- Python `str.endswith` (kernel-friendly list form). -/
def pyEndsWith (s t : String) : Bool := t.data.isSuffixOf s.data

/-- Python `str.startswith` (kernel-friendly list form). -/
def pyStartsWith (s t : String) : Bool := t.data.isPrefixOf s.data

/-- Python `str.lower` (ASCII; the extensions compared are ASCII). -/
def strToLower (s : String) : String := String.mk (s.data.map Char.toLower)

/-- ASCII Python whitespace, the `\s` class: space, tab, newline, carriage
return, vertical tab, form feed. -/
def isPyWS (c : Char) : Bool :=
  c == ' ' || c == '\t' || c == '\n' || c == '\r' || c == '\x0b' || c == '\x0c'

/-- Python `str.strip()` on a character list (ASCII whitespace; the text
this program strips is ASCII). -/
def pyStripChars (l : List Char) : List Char :=
  ((l.dropWhile isPyWS).reverse.dropWhile isPyWS).reverse

/-- Python `str.strip()`. -/
def pyStrip (s : String) : String := String.mk (pyStripChars s.data)

/-! ## Risk score (agent.py, `RiskAssessorAgent.run`) -/

/-- Python `round(q, 2)` in exact rational arithmetic:
`round(q*100)/100`.  (Python rounds floats half-to-even; the two agree
everywhere this development evaluates the function, since the arguments
used are integral multiples of 1/10, whose hundredfold is an integer.) -/
def pyRound2 (q : ℚ) : ℚ := (round (q * 100) : ℤ) / 100

/-- agent.py line 70: `risk_score = min(100, round(count * 0.1, 2))` where
`count = len(df)`. -/
def riskScore (count : ℕ) : ℚ := min 100 (pyRound2 ((count : ℚ) * (1 / 10)))

/-! ## Extraction layer (helper.py) -/

/-- `os.path.splitext(path)[1]` (CPython `posixpath`): the extension of the
basename, i.e. everything from the last `.` on, except that dots that are
part of a leading run of dots in the basename do not begin an extension
(`".bashrc"` has extension `""`). -/
def splitextExt (p : String) : String :=
  let base := (p.data.reverse.takeWhile (fun c => c ≠ '/')).reverse
  let rev := base.reverse
  let extRev := rev.takeWhile (fun c => c ≠ '.')
  match rev.dropWhile (fun c => c ≠ '.') with
  | [] => ""
  | _ :: preRev =>
    if preRev.any (fun c => c ≠ '.') then String.mk ('.' :: extRev.reverse) else ""

/-- `os.path.splitext(path)[1].lower()`, helper.py line 30. -/
def extLower (path : String) : String := strToLower (splitextExt path)

/-- The extensions `read_file_to_df` dispatches on (helper.py lines 31-38). -/
def supportedExts : List String := [".csv", ".xls", ".xlsx", ".pdf", ".docx"]

/-- Failures of the embedded ingestion code.  `unsupported` is the
`ValueError("Unsupported extension: ...")` of helper.py line 40 (the spec's
`UnsupportedFormat`); `external` is any failure raised inside an external
reader (pandas / fitz / docx); `emptyConcat` is the
`ValueError("No objects to concatenate")` that `pd.concat` raises on an
empty list. -/
inductive Err where
  | unsupported (msg : String)
  | external (msg : String)
  | emptyConcat
deriving DecidableEq

/-- `read_file_to_df` (helper.py lines 29-40).  The four per-format readers
(`pd.read_csv`, `pd.read_excel`, `_extract_pdf`, `_extract_docx`) are
external collaborators, modelled by the single parameter `env` mapping a
path to the DataFrame its file yields (or to the reader's failure); which
of the four is invoked does not affect any claim, only the dispatch and
the unsupported-extension failure do. -/
def read_file_to_df (env : String → Except String DataFrame) (path : String) :
    Except Err DataFrame :=
  if extLower path == ".csv" then (env path).mapError Err.external
  else if extLower path == ".xls" || extLower path == ".xlsx" then (env path).mapError Err.external
  else if extLower path == ".pdf" then (env path).mapError Err.external
  else if extLower path == ".docx" then (env path).mapError Err.external
  else .error (.unsupported ("Unsupported extension: " ++ extLower path))

/-- `pd.concat(dfs, ignore_index=True, sort=False)`: raises
`ValueError("No objects to concatenate")` on an empty list, otherwise
appends all rows in order (column union is implicit in the row model). -/
def pdConcat (dfs : List DataFrame) : Except Err DataFrame :=
  if dfs.isEmpty then .error .emptyConcat else .ok dfs.flatten

/-- `os.path.basename`. -/
def basename (p : String) : String :=
  String.mk ((p.data.reverse.takeWhile (fun c => c ≠ '/')).reverse)

/-- The reading loop of `DataAssistantAgent.run` (agent.py lines 20-23):
`dfs.append(read_file_to_df(p))` for each path, with NO try/except around
it — the first failing file aborts the loop and propagates. -/
def readAll (env : String → Except String DataFrame) : List String → Except Err (List DataFrame)
  | [] => .ok []
  | p :: rest =>
    match read_file_to_df env p with
    | .error e => .error e
    | .ok df =>
      match readAll env rest with
      | .error e => .error e
      | .ok dfs => .ok (df :: dfs)

/-- `DataAssistantAgent.run`, agent.py lines 18-25: read every file, then
`pd.concat`.  (The LLM commentary of lines 36-48 is an external call and
not modelled; the returned value is the combined DataFrame.) -/
def dataAgentRun (env : String → Except String DataFrame) (paths : List String) :
    Except Err DataFrame :=
  match readAll env paths with
  | .error e => .error e
  | .ok dfs => pdConcat dfs

/-! ## Ingestor metrics and `prepare_financial_data` (helper.py) -/

/-- Is a column present in the combined DataFrame
(`col in combined_df.columns`)? -/
def hasCol (df : DataFrame) (c : String) : Bool :=
  df.any (fun row => row.any (fun kv => kv.1 == c))

/-- The values present in a column, in row order; rows without the key are
missing/NaN cells, which pandas `mean`/`std` skip. -/
def colVals (df : DataFrame) (c : String) : List ℚ :=
  df.filterMap (fun row => row.lookup c)

/-- pandas `Series.mean` on the present values (`sum/count`; the empty
case, where pandas yields NaN, is idealized to 0 — no claim evaluates it). -/
def pdMean (l : List ℚ) : ℚ := l.sum / l.length

/-- The `CALCULATED KEY METRICS` block of `prepare_financial_data`
(helper.py lines 97-119), kept as structured values: the string rendering
(`f"${avg_revenue:,.0f}"` etc.) is presentation only. -/
structure Metrics where
  avgRevenue : ℚ
  avgExpenditure : ℚ
  deficitPct : ℚ
  classification : String
  debtToRevenue : Option ℚ
  educationPct : Option ℚ
deriving DecidableEq

/-- helper.py lines 98-119: the metrics are computed only when both the
revenue and the expenditure column are present. -/
def keyMetrics (df : DataFrame) : Option Metrics :=
  if hasCol df "Totals.Revenue" && hasCol df "Totals.Expenditure" then
    let avgRevenue := pdMean (colVals df "Totals.Revenue")
    let avgExpenditure := pdMean (colVals df "Totals.Expenditure")
    let deficitPct := (avgExpenditure - avgRevenue) / avgRevenue * 100
    some
      { avgRevenue := avgRevenue
        avgExpenditure := avgExpenditure
        deficitPct := deficitPct
        classification := if deficitPct > 0 then "DEFICIT" else "SURPLUS"
        debtToRevenue :=
          if hasCol df "Totals. Debt at end of fiscal year" then
            some (pdMean (colVals df "Totals. Debt at end of fiscal year") / avgRevenue)
          else none
        educationPct :=
          if hasCol df "Details.Education.Education Total" then
            some (pdMean (colVals df "Details.Education.Education Total") / avgExpenditure * 100)
          else none }
  else none

/-- The result of `prepare_financial_data`, structured: the code renders
these into the `data_context` string (rendering abstracted). -/
structure Prep where
  combined : DataFrame
  metrics : Option Metrics
  files : List String
deriving DecidableEq

/-- The per-file loop of `prepare_financial_data` (helper.py lines 64-90):
each file is read inside `try`/`except`; on success its DataFrame and its
summary (represented by the file's basename) are appended, on ANY failure
the file is skipped (the error is only printed). -/
def prepLoop (env : String → Except String DataFrame) :
    List String → List DataFrame → List String → List DataFrame × List String
  | [], dfs, sums => (dfs, sums)
  | p :: rest, dfs, sums =>
    match read_file_to_df env p with
    | .ok df => prepLoop env rest (dfs ++ [df]) (sums ++ [basename p])
    | .error _ => prepLoop env rest dfs sums

/-- `prepare_financial_data` (helper.py lines 57-133): the soft-fail loop,
then `pd.concat` (line 92, which raises on an empty list), then the key
metrics. -/
def prepare_financial_data (env : String → Except String DataFrame)
    (paths : List String) : Except Err Prep :=
  let (dfs, sums) := prepLoop env paths [] []
  match pdConcat dfs with
  | .error e => .error e
  | .ok combined => .ok ⟨combined, keyMetrics combined, sums⟩

/-- The DataFrames of the files that extract successfully, in path order. -/
def validDfs (env : String → Except String DataFrame) (paths : List String) :
    List DataFrame :=
  paths.filterMap (fun p => (read_file_to_df env p).toOption)

/-! ## Risk-stage volatility loop (agent.py lines 73-81) -/

/-- Column names in order of first appearance (pandas' column order after
`pd.concat`; in this model every column is numeric, matching
`select_dtypes(include=['number'])` on all-numeric data). -/
def dedupFirstAux (seen : List String) : List String → List String
  | [] => []
  | c :: rest =>
    if c ∈ seen then dedupFirstAux seen rest
    else c :: dedupFirstAux (c :: seen) rest

/-- `df.select_dtypes(include=['number']).columns.tolist()`. -/
def dfNumericCols (df : DataFrame) : List String :=
  dedupFirstAux [] (df.flatten.map Prod.fst)

/-- One iteration of the volatility loop (agent.py lines 77-81): compute
std and mean of the column; only when the mean is nonzero append the
coefficient of variation `std/|mean| * 100`. -/
def volStep (stdFn : List ℚ → ℚ) (df : DataFrame)
    (acc : List (String × ℚ)) (col : String) : List (String × ℚ) :=
  let vals := colVals df col
  let sd := stdFn vals
  let mu := pdMean vals
  if mu ≠ 0 then acc ++ [(col, sd / |mu| * 100)] else acc

/-- The volatility loop of `RiskAssessorAgent.run` (agent.py lines 76-81)
over the first three numeric columns.  pandas `std` is an external
computation, passed as `stdFn`; the `volatility_info` string accumulation
is modelled as the list of `(column, cv)` entries appended in loop order. -/
def volatilityEntries (stdFn : List ℚ → ℚ) (df : DataFrame) : List (String × ℚ) :=
  ((dfNumericCols df).take 3).foldl (volStep stdFn df) []

/-! ## Section Parser (main.py, `generate_pdf_report`, lines 69-102) -/

/-- The fixed report title, main.py line 82. -/
def reportTitle : String := "FINANCIAL ANALYSIS REPORT"

/-- The boundary test of main.py line 82:
`line_strip.endswith(":") and len(line_strip) > 3 and line_strip != "FINANCIAL ANALYSIS REPORT"`. -/
def isBoundary (ls : String) : Bool :=
  pyEndsWith ls ":" && ls.length > 3 && ls != reportTitle

/-- Python truthiness of the `title` variable (`None` and `""` are falsy). -/
def titleTruthy : Option String → Bool
  | none => false
  | some t => t != ""

/-- The line loop of `generate_pdf_report` (main.py lines 78-99), with the
PDF side effects reified: instead of writing `section_title`/`section_body`
blocks to the PDF, the emitted `(title, body-lines)` pairs are collected in
order.  Note the boundary branch when nothing is emitted (`title` still
`None`): `current_section` is NOT reset. -/
def parseLines : List String → Option String → List String → List (String × List String)
  | [], t, cur =>
    if titleTruthy t && !cur.isEmpty then [(t.getD "", cur)] else []
  | line :: rest, t, cur =>
    let ls := pyStrip line
    if isBoundary ls then
      if titleTruthy t && !cur.isEmpty then
        (t.getD "", cur) :: parseLines rest (some ls) []
      else
        parseLines rest (some ls) cur
    else if ls == reportTitle || pyStartsWith ls "====" then
      parseLines rest t cur
    else if ls != "" then
      parseLines rest t (cur ++ [line])
    else
      parseLines rest t cur

/-- Python `text.split("\n")`. -/
def splitOnNl : List Char → List (List Char)
  | [] => [[]]
  | '\n' :: rest => [] :: splitOnNl rest
  | c :: rest =>
    match splitOnNl rest with
    | [] => [[c]]
    | h :: tl => (c :: h) :: tl

/-- `generate_pdf_report` (main.py lines 69-102) up to the PDF rendering:
the sequence of ReportSections written to the document. -/
def generate_pdf_report (text : String) : List (String × List String) :=
  parseLines ((splitOnNl text.data).map String.mk) none []

/-- The section-boundary condition exactly as the spec words it: the
trimmed line ends with `:`, has length > 3, and is not the report title. -/
def boundarySpec (ls : String) : Prop :=
  pyEndsWith ls ":" = true ∧ 3 < ls.length ∧ ls ≠ reportTitle

/-! ## Markdown stripping (main.py, `FinancialPipeline._strip_markdown`,
lines 184-194)

Each `re.sub` pass is embedded as a left-to-right scan, exactly re.sub's
strategy: at each position try the pattern; on a match emit the
replacement and resume after the match, otherwise emit one character and
advance.  The scans recurse on suffixes that are not structural subterms,
so each carries a fuel argument initialized to the list length; every
step consumes at least one character while spending exactly one unit of
fuel, so the `0, l => l` fallback is unreachable for nonempty `l`. -/

/-- Find the first `**` on the current line: `(.*?)\*\*` where `.` does not
match a newline.  Returns the content before the `**` and the remainder
after it. -/
def starClose2 : List Char → Option (List Char × List Char)
  | [] => none
  | '*' :: '*' :: rest => some ([], rest)
  | '\n' :: _ => none
  | c :: rest => (starClose2 rest).map (fun pr => (c :: pr.1, pr.2))

/-- Find the first `*` on the current line: `(.*?)\*`. -/
def starClose1 : List Char → Option (List Char × List Char)
  | [] => none
  | '*' :: rest => some ([], rest)
  | '\n' :: _ => none
  | c :: rest => (starClose1 rest).map (fun pr => (c :: pr.1, pr.2))

/-- Find the first `` ` ``: `([^`]*)` followed by `` ` `` (a negated class
does match a newline). -/
def tickClose : List Char → Option (List Char × List Char)
  | [] => none
  | '`' :: rest => some ([], rest)
  | c :: rest => (tickClose rest).map (fun pr => (c :: pr.1, pr.2))

/-- `re.sub(r"\*\*(.*?)\*\*", r"\1", text)` — bold markers. -/
def subBoldF : ℕ → List Char → List Char
  | _, [] => []
  | 0, l => l
  | fuel + 1, c :: rest =>
    if c = '*' then
      match rest with
      | '*' :: rest2 =>
        match starClose2 rest2 with
        | some (content, rest') => content ++ subBoldF fuel rest'
        | none => c :: subBoldF fuel ('*' :: rest2)
      | _ => c :: subBoldF fuel rest
    else c :: subBoldF fuel rest

/-- `re.sub(r"\*(.*?)\*", r"\1", text)` — italic markers. -/
def subItalicF : ℕ → List Char → List Char
  | _, [] => []
  | 0, l => l
  | fuel + 1, c :: rest =>
    if c = '*' then
      match starClose1 rest with
      | some (content, rest') => content ++ subItalicF fuel rest'
      | none => c :: subItalicF fuel rest
    else c :: subItalicF fuel rest

/-- `re.sub(r"#+\s*", "", text)` — markdown headers (anywhere in the
string: `#+` then greedy whitespace, newlines included). -/
def subHeadersF : ℕ → List Char → List Char
  | _, [] => []
  | 0, l => l
  | fuel + 1, c :: rest =>
    if c = '#' then
      subHeadersF fuel ((rest.dropWhile (fun x => x == '#')).dropWhile isPyWS)
    else c :: subHeadersF fuel rest

/-- `re.sub(r"^[-•]\s*", "", text, flags=re.M)` — leading bullets.
`atStart` records whether the current position is the string start or
immediately after a `\n` of the original string (the `^` anchor under
`re.M`); the greedy `\s*` may consume newlines, in which case the position
after the match is again a line start. -/
def subBulletsF : ℕ → Bool → List Char → List Char
  | _, _, [] => []
  | 0, _, l => l
  | fuel + 1, atStart, c :: rest =>
    if atStart && (c == '-' || c == '•') then
      let ws := rest.takeWhile isPyWS
      subBulletsF fuel (ws.getLast? == some '\n') (rest.dropWhile isPyWS)
    else
      c :: subBulletsF fuel (c == '\n') rest

/-- `re.sub(r"`([^`]*)`", r"\1", text)` — inline code spans. -/
def subCodeF : ℕ → List Char → List Char
  | _, [] => []
  | 0, l => l
  | fuel + 1, c :: rest =>
    if c = '`' then
      match tickClose rest with
      | some (content, rest') => content ++ subCodeF fuel rest'
      | none => c :: subCodeF fuel rest
    else c :: subCodeF fuel rest

/-- The bold pass with its fuel. -/
def subBold (l : List Char) : List Char := subBoldF l.length l

/-- The italic pass with its fuel. -/
def subItalic (l : List Char) : List Char := subItalicF l.length l

/-- The header pass with its fuel. -/
def subHeaders (l : List Char) : List Char := subHeadersF l.length l

/-- The bullet pass with its fuel; the scan starts at a line start. -/
def subBullets (l : List Char) : List Char := subBulletsF l.length true l

/-- The inline-code pass with its fuel. -/
def subCode (l : List Char) : List Char := subCodeF l.length l

/-- The five `re.sub` passes of `_strip_markdown` in source order, then the
final `.strip()` (main.py lines 189-194). -/
def stripMarkdownStr (s : String) : String :=
  String.mk (pyStripChars (subCode (subBullets (subHeaders (subItalic (subBold s.data))))))

/-- A Python value reaching `_strip_markdown`: either a `str`, or any other
value, represented by its `str()` rendering. -/
inductive PyVal where
  | str (s : String)
  | other (strRepr : String)

/-- `FinancialPipeline._strip_markdown` (main.py lines 184-194): a
non-`str` input is returned as `str(text)` with no substitution and no
trimming; a `str` input goes through the five substitutions and `.strip()`. -/
def stripMarkdown : PyVal → String
  | .str s => stripMarkdownStr s
  | .other r => r

/-- No character of the string is a markdown marker (`*`, `#`, `` ` ``,
`-`, `•`). -/
def markerFree (s : String) : Prop :=
  ∀ c ∈ s.data, c ≠ '*' ∧ c ≠ '#' ∧ c ≠ '`' ∧ c ≠ '-' ∧ c ≠ '•'

instance (s : String) : Decidable (markerFree s) := by
  unfold markerFree
  infer_instance

/-! ## Concrete inputs used by witnesses and counterexamples -/

/-- An external-reader environment in which every file reads as an empty
DataFrame. -/
def envOkEmpty : String → Except String DataFrame := fun _ => .ok []

/-- The end-to-end scenario DataFrame of the spec:
`Totals.Revenue=[100,200]`, `Totals.Expenditure=[150,180]`. -/
def df6 : DataFrame :=
  [[("Totals.Revenue", 100), ("Totals.Expenditure", 150)],
   [("Totals.Revenue", 200), ("Totals.Expenditure", 180)]]

/-- A DataFrame whose column `B` has mean zero. -/
def dfZeroMean : DataFrame := [[("A", 1), ("B", 0)], [("A", 3), ("B", 0)]]

/-- A stand-in for the external pandas `std`. -/
def stdConst7 : List ℚ → ℚ := fun _ => 7

/-! ## Theorems -/

lemma pyRound2_nat_div_ten (n : ℕ) : pyRound2 ((n : ℚ) * (1 / 10)) = (n : ℚ) / 10 := by
  unfold pyRound2
  have h : ((n : ℚ) * (1 / 10)) * 100 = ((10 * n : ℕ) : ℚ) := by push_cast; ring
  rw [h, round_natCast]
  push_cast
  ring

lemma riskScore_eq (n : ℕ) : riskScore n = min 100 ((n : ℚ) / 10) := by
  unfold riskScore
  rw [pyRound2_nat_div_ten]

/-- C1.  The risk score is `min(100, record_count * 0.1)` rounded to two
decimals (the code rounds before taking the min; in exact arithmetic the
two orders agree), it is monotone non-decreasing in the record count, and
it is exactly 100 for every record count ≥ 1000. -/
theorem riskScore_spec :
    (∀ n : ℕ, riskScore n = pyRound2 (min 100 ((n : ℚ) * (1 / 10)))) ∧
    (∀ m n : ℕ, m ≤ n → riskScore m ≤ riskScore n) ∧
    (∀ n : ℕ, 1000 ≤ n → riskScore n = 100) := by
  refine ⟨?_, ?_, ?_⟩
  · intro n
    rw [riskScore_eq]
    rcases le_total ((n : ℚ) * (1 / 10)) 100 with h | h
    · have h10 : (n : ℚ) * (1 / 10) = (n : ℚ) / 10 := by ring
      rw [min_eq_right h, min_eq_right (by rw [← h10]; exact h)]
      rw [pyRound2_nat_div_ten n]
    · have h10 : (n : ℚ) * (1 / 10) = (n : ℚ) / 10 := by ring
      rw [min_eq_left h, min_eq_left (by rw [← h10]; exact h)]
      unfold pyRound2
      norm_num
  · intro m n hmn
    rw [riskScore_eq, riskScore_eq]
    have : (m : ℚ) ≤ n := by exact_mod_cast hmn
    exact min_le_min le_rfl (by linarith)
  · intro n hn
    rw [riskScore_eq]
    have : (1000 : ℚ) ≤ (n : ℚ) := by exact_mod_cast hn
    have h : (100 : ℚ) ≤ (n : ℚ) / 10 := by linarith
    exact min_eq_left h

/-- Concrete instance of `riskScore_spec`: monotonicity between 3 and 7
records, and the clamp at 1200 records. -/
theorem riskScore_spec_witness :
    riskScore 3 ≤ riskScore 7 ∧ riskScore 1200 = 100 :=
  ⟨riskScore_spec.2.1 3 7 (by norm_num), riskScore_spec.2.2 1200 (by norm_num)⟩

lemma isBoundary_iff (ls : String) : isBoundary ls = true ↔ boundarySpec ls := by
  unfold isBoundary boundarySpec
  simp [Bool.and_eq_true, decide_eq_true_eq, bne_iff_ne]
  tauto

/-- C3.  A line is treated as a section boundary by the parser exactly
when its stripped form satisfies the spec's three conditions (ends with
`:`, length > 3, not the report title): on a boundary line the parser
emits/keeps state per the boundary branch, on any other line it takes the
skip/accumulate branch. -/
theorem sectionBoundary_spec :
    ∀ (line : String) (rest : List String) (t : Option String) (cur : List String),
      (boundarySpec (pyStrip line) →
        parseLines (line :: rest) t cur =
          if titleTruthy t && !cur.isEmpty then
            (t.getD "", cur) :: parseLines rest (some (pyStrip line)) []
          else parseLines rest (some (pyStrip line)) cur) ∧
      (¬ boundarySpec (pyStrip line) →
        parseLines (line :: rest) t cur =
          if pyStrip line == reportTitle || pyStartsWith (pyStrip line) "====" then
            parseLines rest t cur
          else if pyStrip line != "" then parseLines rest t (cur ++ [line])
          else parseLines rest t cur) := by
  intro line rest t cur
  constructor
  · intro h
    have hb : isBoundary (pyStrip line) = true := (isBoundary_iff _).mpr h
    simp only [parseLines, hb, if_true]
  · intro h
    have hb : isBoundary (pyStrip line) = false := by
      cases hbv : isBoundary (pyStrip line) with
      | true => exact absurd ((isBoundary_iff _).mp hbv) h
      | false => rfl
    simp only [parseLines, hb, Bool.false_eq_true, if_false]

/-- Concrete instance of `sectionBoundary_spec`: `"Overview:"` is treated
as a boundary. -/
theorem sectionBoundary_spec_witness :
    parseLines ["Overview:"] none [] =
      if titleTruthy none && !(List.isEmpty ([] : List String)) then
        ((none : Option String).getD "", ([] : List String)) ::
          parseLines [] (some (pyStrip "Overview:")) []
      else parseLines [] (some (pyStrip "Overview:")) ([] : List String) :=
  (sectionBoundary_spec "Overview:" [] none []).1 ⟨by decide, by decide, by decide⟩

/-- C4, counterexample: with `"Lead"` preceding the first boundary line,
the parser does NOT discard it — it appears in the body of the first
emitted section. -/
theorem leadingLines_cex :
    generate_pdf_report "Lead\nOverview:\nLine A\nRisk:\nLine C" =
      [("Overview:", ["Lead", "Line A"]), ("Risk:", ["Line C"])] ∧
    ¬ (∀ sec ∈ generate_pdf_report "Lead\nOverview:\nLine A\nRisk:\nLine C",
        "Lead" ∉ sec.2) := by
  constructor
  · decide
  · decide

/-- C4, amended.  A non-empty, non-skipped line read before the first
boundary is retained in the accumulator (not discarded), and is therefore
emitted as part of the body of the first emitted section, as the concrete
run shows. -/
theorem leadingLines_amended :
    (∀ (lead : String) (rest : List String) (cur : List String),
      pyStrip lead ≠ "" →
      isBoundary (pyStrip lead) = false →
      pyStrip lead ≠ reportTitle →
      pyStartsWith (pyStrip lead) "====" = false →
      parseLines (lead :: rest) none cur = parseLines rest none (cur ++ [lead])) ∧
    generate_pdf_report "Lead\nOverview:\nLine A\nRisk:\nLine C" =
      [("Overview:", ["Lead", "Line A"]), ("Risk:", ["Line C"])] := by
  constructor
  · intro lead rest cur h1 h2 h3 h4
    simp only [parseLines, h2, Bool.false_eq_true, if_false, h4, Bool.or_false,
      beq_eq_false_iff_ne.mpr h3, bne_iff_ne, ne_eq, h1, not_false_eq_true, if_true]
  · decide

/-- Concrete instance of `leadingLines_amended`: the line `"Lead"` is moved
into the accumulator. -/
theorem leadingLines_amended_witness :
    parseLines ["Lead", "Overview:"] none [] = parseLines ["Overview:"] none ["Lead"] :=
  leadingLines_amended.1 "Lead" ["Overview:"] [] (by decide) (by decide) (by decide) (by decide)

lemma read_file_to_df_cases (env : String → Except String DataFrame) (path : String) :
    (extLower path ∈ supportedExts ∧
      read_file_to_df env path = (env path).mapError Err.external) ∨
    (extLower path ∉ supportedExts ∧
      read_file_to_df env path =
        .error (.unsupported ("Unsupported extension: " ++ extLower path))) := by
  unfold read_file_to_df supportedExts
  split_ifs with h1 h2 h3 h4
  · left
    simp only [beq_iff_eq] at h1
    exact ⟨by simp [h1], rfl⟩
  · left
    simp only [Bool.or_eq_true, beq_iff_eq] at h2
    rcases h2 with h | h <;> exact ⟨by simp [h], rfl⟩
  · left
    simp only [beq_iff_eq] at h3
    exact ⟨by simp [h3], rfl⟩
  · left
    simp only [beq_iff_eq] at h4
    exact ⟨by simp [h4], rfl⟩
  · right
    refine ⟨?_, rfl⟩
    simp only [Bool.or_eq_true, beq_iff_eq, not_or] at h1 h2 h3 h4
    simp only [List.mem_cons, List.not_mem_nil, or_false, not_or]
    exact ⟨h1, h2.1, h2.2, h3, h4⟩

/-- C7.  `read_file_to_df` fails with the `UnsupportedFormat` error — whose
message names the offending lower-cased extension — exactly when that
extension is not one of `.csv`, `.xls`, `.xlsx`, `.pdf`, `.docx`; for a
supported extension it never produces that error. -/
theorem read_file_unsupported :
    ∀ (env : String → Except String DataFrame) (path : String),
      (extLower path ∉ supportedExts ↔
        read_file_to_df env path =
          .error (.unsupported ("Unsupported extension: " ++ extLower path))) ∧
      (∀ msg, extLower path ∈ supportedExts →
        read_file_to_df env path ≠ .error (.unsupported msg)) := by
  intro env path
  have hmap : ∀ msg, (env path).mapError Err.external ≠
      Except.error (Err.unsupported msg) := by
    intro msg
    cases h : env path with
    | ok x => simp [Except.mapError]
    | error e => simp [Except.mapError]
  rcases read_file_to_df_cases env path with ⟨hmem, heq⟩ | ⟨hmem, heq⟩
  · refine ⟨⟨fun hn => absurd hmem hn, fun hc => ?_⟩, fun msg _ => by rw [heq]; exact hmap msg⟩
    rw [heq] at hc
    exact absurd hc (hmap _)
  · exact ⟨⟨fun _ => heq, fun _ => hmem⟩, fun msg hin => absurd hin hmem⟩

/-- Concrete instance of `read_file_unsupported`: a `.txt` path fails with
the unsupported-extension error, a `.csv` path never does. -/
theorem read_file_unsupported_witness :
    read_file_to_df envOkEmpty "report.txt" =
      .error (.unsupported ("Unsupported extension: " ++ extLower "report.txt")) ∧
    read_file_to_df envOkEmpty "data.csv" ≠ .error (.unsupported "m") :=
  ⟨(read_file_unsupported envOkEmpty "report.txt").1.mp (by decide),
   (read_file_unsupported envOkEmpty "data.csv").2 "m" (by decide)⟩

/-- C2, counterexample: in the pipeline's data stage
(`DataAssistantAgent.run`) a per-file extraction failure is NOT excluded
and logged — it propagates to the caller, even though another file of the
run extracts successfully. -/
theorem dataAgent_propagates_cex :
    read_file_to_df envOkEmpty "good.csv" = .ok [] ∧
    dataAgentRun envOkEmpty ["good.csv", "bad.txt"] =
      .error (.unsupported "Unsupported extension: .txt") := by
  exact ⟨by decide, by decide⟩

lemma prepLoop_spec (env : String → Except String DataFrame) :
    ∀ (paths : List String) (dfs : List DataFrame) (sums : List String),
      prepLoop env paths dfs sums =
        (dfs ++ validDfs env paths,
         sums ++ (paths.filter
            (fun p => (read_file_to_df env p).toOption.isSome)).map basename) := by
  intro paths
  induction paths with
  | nil => intro dfs sums; simp [prepLoop, validDfs]
  | cons p rest ih =>
    intro dfs sums
    cases h : read_file_to_df env p with
    | ok df =>
      simp [prepLoop, h, ih, validDfs, List.filterMap_cons, List.filter_cons,
        Except.toOption]
    | error e =>
      simp [prepLoop, h, ih, validDfs, List.filterMap_cons, List.filter_cons,
        Except.toOption]

/-- C2, amended.  `prepare_financial_data` (helper.py) does implement the
soft-fail policy: a failing file is skipped, never propagated — whenever at
least one file extracts, the run succeeds and the combined set is exactly
the concatenation of the successfully-extracted files, and the only
possible failure is the empty-concatenation error when no file extracts.
The pipeline's data stage (`DataAssistantAgent.run`), by contrast,
propagates per-file failures (see the counterexample). -/
theorem prepare_soft_fail :
    ∀ (env : String → Except String DataFrame) (paths : List String),
      (validDfs env paths ≠ [] →
        prepare_financial_data env paths =
          .ok ⟨(validDfs env paths).flatten,
               keyMetrics (validDfs env paths).flatten,
               (paths.filter
                  (fun p => (read_file_to_df env p).toOption.isSome)).map basename⟩) ∧
      (∀ e, prepare_financial_data env paths = .error e →
        e = Err.emptyConcat ∧ validDfs env paths = []) := by
  intro env paths
  have hl := prepLoop_spec env paths [] []
  simp only [List.nil_append] at hl
  constructor
  · intro hne
    unfold prepare_financial_data
    rw [hl]
    simp only [pdConcat, List.isEmpty_eq_true]
    rw [if_neg hne]
  · intro e he
    unfold prepare_financial_data at he
    rw [hl] at he
    by_cases hv : validDfs env paths = []
    · refine ⟨?_, hv⟩
      simp only [pdConcat, hv, List.isEmpty_nil, if_true] at he
      cases he
      rfl
    · simp only [pdConcat, List.isEmpty_eq_true] at he
      rw [if_neg hv] at he
      cases he

/-- Concrete instance of `prepare_soft_fail`: with one good and one bad
file, the bad file is skipped and the run succeeds on the good one. -/
theorem prepare_soft_fail_witness :
    prepare_financial_data envOkEmpty ["good.csv", "bad.txt"] =
      .ok ⟨(validDfs envOkEmpty ["good.csv", "bad.txt"]).flatten,
           keyMetrics (validDfs envOkEmpty ["good.csv", "bad.txt"]).flatten,
           ((["good.csv", "bad.txt"].filter
              (fun p => (read_file_to_df envOkEmpty p).toOption.isSome)).map basename)⟩ :=
  (prepare_soft_fail envOkEmpty ["good.csv", "bad.txt"]).1 (by decide)

/-- C8.  When every input file fails extraction, both ingestion code paths
surface an error before any report is produced: the pipeline's data stage
(`DataAssistantAgent.run`, whose result the report stages consume) and
`prepare_financial_data` (which fails at `pd.concat` on the empty list). -/
theorem allFail_run_fails :
    ∀ (env : String → Except String DataFrame) (paths : List String),
      (∀ p ∈ paths, (read_file_to_df env p).toOption = none) →
      (∃ e, dataAgentRun env paths = .error e) ∧
      (∃ e, prepare_financial_data env paths = .error e) := by
  intro env paths h
  have hv : validDfs env paths = [] := by
    unfold validDfs
    rw [List.filterMap_eq_nil_iff]
    exact h
  constructor
  · cases paths with
    | nil => exact ⟨.emptyConcat, by simp [dataAgentRun, readAll, pdConcat]⟩
    | cons p rest =>
      have hp := h p (List.mem_cons_self p rest)
      cases hre : read_file_to_df env p with
      | ok df => rw [hre] at hp; simp [Except.toOption] at hp
      | error e => exact ⟨e, by simp [dataAgentRun, readAll, hre]⟩
  · refine ⟨.emptyConcat, ?_⟩
    have hl := prepLoop_spec env paths [] []
    simp only [List.nil_append] at hl
    unfold prepare_financial_data
    rw [hl]
    simp [pdConcat, hv]

/-- Concrete instance of `allFail_run_fails`: a single unsupported file
fails the whole run in both code paths. -/
theorem allFail_run_fails_witness :
    (∃ e, dataAgentRun envOkEmpty ["only.txt"] = .error e) ∧
    (∃ e, prepare_financial_data envOkEmpty ["only.txt"] = .error e) :=
  allFail_run_fails envOkEmpty ["only.txt"] (by decide)

/-- C6.  Whenever the metrics are computed (both columns present), the
ratio metric is `(mean expenditure − mean revenue) / mean revenue × 100`,
classified `DEFICIT` exactly when strictly positive and `SURPLUS`
otherwise; on the spec's end-to-end input the values are
`avg_revenue = 150`, `avg_expenditure = 165`, `deficit_pct = 10`,
classified `DEFICIT`. -/
theorem deficit_metric :
    (∀ (df : DataFrame) (m : Metrics), keyMetrics df = some m →
      m.avgRevenue = pdMean (colVals df "Totals.Revenue") ∧
      m.avgExpenditure = pdMean (colVals df "Totals.Expenditure") ∧
      m.deficitPct = (m.avgExpenditure - m.avgRevenue) / m.avgRevenue * 100 ∧
      (m.classification = "DEFICIT" ↔ 0 < m.deficitPct) ∧
      (m.classification = "SURPLUS" ↔ ¬ 0 < m.deficitPct)) ∧
    keyMetrics df6 = some ⟨150, 165, 10, "DEFICIT", none, none⟩ := by
  constructor
  · intro df m h
    unfold keyMetrics at h
    by_cases hc : (hasCol df "Totals.Revenue" && hasCol df "Totals.Expenditure") = true
    · rw [if_pos hc] at h
      cases h
      refine ⟨rfl, rfl, rfl, ?_, ?_⟩ <;>
        by_cases hp :
          0 < (pdMean (colVals df "Totals.Expenditure") -
                pdMean (colVals df "Totals.Revenue")) /
              pdMean (colVals df "Totals.Revenue") * 100 <;>
        simp [hp]
    · rw [if_neg hc] at h
      cases h
  · unfold keyMetrics
    rw [show (hasCol df6 "Totals.Revenue" && hasCol df6 "Totals.Expenditure") = true
          from by decide]
    rw [show colVals df6 "Totals.Revenue" = [100, 200] from by decide]
    rw [show colVals df6 "Totals.Expenditure" = [150, 180] from by decide]
    rw [show hasCol df6 "Totals. Debt at end of fiscal year" = false from by decide]
    rw [show hasCol df6 "Details.Education.Education Total" = false from by decide]
    norm_num [pdMean]

/-- Concrete instance of `deficit_metric`: the general characterization
applied to the end-to-end DataFrame. -/
theorem deficit_metric_witness :
    (150 : ℚ) = pdMean (colVals df6 "Totals.Revenue") ∧
    (165 : ℚ) = pdMean (colVals df6 "Totals.Expenditure") ∧
    (10 : ℚ) = ((165 : ℚ) - 150) / 150 * 100 ∧
    ("DEFICIT" = "DEFICIT" ↔ (0 : ℚ) < 10) ∧
    ("DEFICIT" = "SURPLUS" ↔ ¬ (0 : ℚ) < 10) :=
  deficit_metric.1 df6 ⟨150, 165, 10, "DEFICIT", none, none⟩ deficit_metric.2

lemma volStep_fold (stdFn : List ℚ → ℚ) (df : DataFrame) :
    ∀ (cols : List String) (acc : List (String × ℚ)),
      cols.foldl (volStep stdFn df) acc =
        acc ++ (cols.filter (fun c => decide (pdMean (colVals df c) ≠ 0))).map
          (fun c => (c, stdFn (colVals df c) / |pdMean (colVals df c)| * 100)) := by
  intro cols
  induction cols with
  | nil => intro acc; simp
  | cons c rest ih =>
    intro acc
    by_cases h : pdMean (colVals df c) ≠ 0 <;>
      simp [List.foldl_cons, List.filter_cons, h, ih, volStep, List.append_assoc]

/-- C9.  The volatility loop emits exactly the first three numeric columns
whose mean is nonzero, with coefficient of variation `std/|mean| × 100`;
a column of the first three whose mean is zero contributes no entry, and
every emitted entry's column has nonzero mean — the `|mean|` divisor is
never zero. -/
theorem volatility_guard :
    ∀ (stdFn : List ℚ → ℚ) (df : DataFrame),
      (volatilityEntries stdFn df =
        (((dfNumericCols df).take 3).filter
            (fun c => decide (pdMean (colVals df c) ≠ 0))).map
          (fun c => (c, stdFn (colVals df c) / |pdMean (colVals df c)| * 100))) ∧
      (∀ c, c ∈ (dfNumericCols df).take 3 → pdMean (colVals df c) = 0 →
        ∀ q, (c, q) ∉ volatilityEntries stdFn df) ∧
      (∀ p, p ∈ volatilityEntries stdFn df → pdMean (colVals df p.1) ≠ 0) := by
  intro stdFn df
  have heq := volStep_fold stdFn df ((dfNumericCols df).take 3) []
  simp only [List.nil_append] at heq
  have hmain : volatilityEntries stdFn df =
      (((dfNumericCols df).take 3).filter
          (fun c => decide (pdMean (colVals df c) ≠ 0))).map
        (fun c => (c, stdFn (colVals df c) / |pdMean (colVals df c)| * 100)) := heq
  refine ⟨hmain, ?_, ?_⟩
  · intro c _ hzero q hmem
    rw [hmain] at hmem
    rcases List.mem_map.mp hmem with ⟨c', hc', hpair⟩
    have hcc : c' = c := congrArg Prod.fst hpair
    rw [hcc] at hc'
    have := List.of_mem_filter hc'
    simp only [decide_eq_true_eq] at this
    exact this hzero
  · intro p hp
    rw [hmain] at hp
    rcases List.mem_map.mp hp with ⟨c', hc', hpair⟩
    have := List.of_mem_filter hc'
    simp only [decide_eq_true_eq] at this
    rw [← hpair]
    exact this

/-- Concrete instance of `volatility_guard`: the zero-mean column `B` of
`dfZeroMean` contributes no volatility entry. -/
theorem volatility_guard_witness :
    ("B", (350 : ℚ)) ∉ volatilityEntries stdConst7 dfZeroMean :=
  (volatility_guard stdConst7 dfZeroMean).2.1 "B" (by decide)
    (by rw [show colVals dfZeroMean "B" = [0, 0] from by decide]; norm_num [pdMean]) 350

lemma dropWhile_head_not {p : Char → Bool} :
    ∀ (l : List Char) (c : Char), (l.dropWhile p).head? = some c → p c = false := by
  intro l
  induction l with
  | nil => intro c h; simp [List.dropWhile] at h
  | cons a t ih =>
    intro c h
    cases hpa : p a with
    | true => rw [List.dropWhile_cons, if_pos hpa] at h; exact ih c h
    | false =>
      rw [List.dropWhile_cons, if_neg (by simp [hpa])] at h
      simp only [List.head?_cons, Option.some.injEq] at h
      rw [← h]
      exact hpa

lemma dropWhile_eq_self_of_head {p : Char → Bool} :
    ∀ l : List Char, (∀ c, l.head? = some c → p c = false) → l.dropWhile p = l := by
  intro l h
  cases l with
  | nil => rfl
  | cons a t => simp [List.dropWhile_cons, h a rfl]

lemma getLast?_dropWhile_ne_nil {p : Char → Bool} :
    ∀ l : List Char, l.dropWhile p ≠ [] → (l.dropWhile p).getLast? = l.getLast? := by
  intro l
  induction l with
  | nil => intro h; simp [List.dropWhile] at h
  | cons a t ih =>
    intro h
    cases hpa : p a with
    | false => rw [List.dropWhile_cons, if_neg (by simp [hpa])]
    | true =>
      rw [List.dropWhile_cons, if_pos hpa] at h ⊢
      rw [ih h]
      cases t with
      | nil => exact absurd (by simp [List.dropWhile]) h
      | cons b t2 => simp [List.getLast?_cons_cons]

lemma pyStripChars_head {l : List Char} {c : Char}
    (h : (pyStripChars l).head? = some c) : isPyWS c = false := by
  unfold pyStripChars at h
  rw [List.head?_reverse] at h
  have hne : (l.dropWhile isPyWS).reverse.dropWhile isPyWS ≠ [] := by
    intro h0; rw [h0] at h; simp at h
  rw [getLast?_dropWhile_ne_nil _ hne, List.getLast?_reverse] at h
  exact dropWhile_head_not _ c h

lemma pyStripChars_getLast {l : List Char} {c : Char}
    (h : (pyStripChars l).getLast? = some c) : isPyWS c = false := by
  unfold pyStripChars at h
  rw [List.getLast?_reverse] at h
  exact dropWhile_head_not _ c h

lemma pyStripChars_idem (l : List Char) :
    pyStripChars (pyStripChars l) = pyStripChars l := by
  have h1 : (pyStripChars l).dropWhile isPyWS = pyStripChars l :=
    dropWhile_eq_self_of_head _ (fun c hc => pyStripChars_head hc)
  show (((pyStripChars l).dropWhile isPyWS).reverse.dropWhile isPyWS).reverse = pyStripChars l
  rw [h1]
  have h2 : (pyStripChars l).reverse.dropWhile isPyWS = (pyStripChars l).reverse := by
    apply dropWhile_eq_self_of_head
    intro c hc
    rw [List.head?_reverse] at hc
    exact pyStripChars_getLast hc
  rw [h2, List.reverse_reverse]

lemma mem_pyStripChars {l : List Char} {c : Char} (h : c ∈ pyStripChars l) : c ∈ l := by
  unfold pyStripChars at h
  rw [List.mem_reverse] at h
  have h2 := (List.dropWhile_sublist _).subset h
  rw [List.mem_reverse] at h2
  exact (List.dropWhile_sublist _).subset h2

lemma subBoldF_id : ∀ (fuel : ℕ) (l : List Char), '*' ∉ l → subBoldF fuel l = l := by
  intro fuel
  induction fuel with
  | zero => intro l _; cases l <;> rfl
  | succ f ih =>
    intro l h
    cases l with
    | nil => rfl
    | cons c rest =>
      have hc : c ≠ '*' := fun hcc => h (hcc ▸ List.mem_cons_self c rest)
      have hrest : '*' ∉ rest := fun hm => h (List.mem_cons_of_mem c hm)
      simp [subBoldF, hc, ih rest hrest]

lemma subItalicF_id : ∀ (fuel : ℕ) (l : List Char), '*' ∉ l → subItalicF fuel l = l := by
  intro fuel
  induction fuel with
  | zero => intro l _; cases l <;> rfl
  | succ f ih =>
    intro l h
    cases l with
    | nil => rfl
    | cons c rest =>
      have hc : c ≠ '*' := fun hcc => h (hcc ▸ List.mem_cons_self c rest)
      have hrest : '*' ∉ rest := fun hm => h (List.mem_cons_of_mem c hm)
      simp [subItalicF, hc, ih rest hrest]

lemma subHeadersF_id : ∀ (fuel : ℕ) (l : List Char), '#' ∉ l → subHeadersF fuel l = l := by
  intro fuel
  induction fuel with
  | zero => intro l _; cases l <;> rfl
  | succ f ih =>
    intro l h
    cases l with
    | nil => rfl
    | cons c rest =>
      have hc : c ≠ '#' := fun hcc => h (hcc ▸ List.mem_cons_self c rest)
      have hrest : '#' ∉ rest := fun hm => h (List.mem_cons_of_mem c hm)
      simp [subHeadersF, hc, ih rest hrest]

lemma subBulletsF_id :
    ∀ (fuel : ℕ) (b : Bool) (l : List Char),
      (∀ c ∈ l, c ≠ '-' ∧ c ≠ '•') → subBulletsF fuel b l = l := by
  intro fuel
  induction fuel with
  | zero => intro b l _; cases l <;> rfl
  | succ f ih =>
    intro b l h
    cases l with
    | nil => rfl
    | cons c rest =>
      have hc := h c (List.mem_cons_self c rest)
      have hrest : ∀ x ∈ rest, x ≠ '-' ∧ x ≠ '•' :=
        fun x hx => h x (List.mem_cons_of_mem c hx)
      simp [subBulletsF, beq_eq_false_iff_ne.mpr hc.1, beq_eq_false_iff_ne.mpr hc.2,
        ih _ rest hrest]

lemma subCodeF_id : ∀ (fuel : ℕ) (l : List Char), '`' ∉ l → subCodeF fuel l = l := by
  intro fuel
  induction fuel with
  | zero => intro l _; cases l <;> rfl
  | succ f ih =>
    intro l h
    cases l with
    | nil => rfl
    | cons c rest =>
      have hc : c ≠ '`' := fun hcc => h (hcc ▸ List.mem_cons_self c rest)
      have hrest : '`' ∉ rest := fun hm => h (List.mem_cons_of_mem c hm)
      simp [subCodeF, hc, ih rest hrest]

lemma stripMarkdownStr_markerFree (s : String) (h : markerFree s) :
    stripMarkdownStr s = String.mk (pyStripChars s.data) := by
  have hstar : '*' ∉ s.data := fun hm => (h _ hm).1 rfl
  have hhash : '#' ∉ s.data := fun hm => (h _ hm).2.1 rfl
  have htick : '`' ∉ s.data := fun hm => (h _ hm).2.2.1 rfl
  have hbul : ∀ c ∈ s.data, c ≠ '-' ∧ c ≠ '•' := fun c hc =>
    ⟨(h c hc).2.2.2.1, (h c hc).2.2.2.2⟩
  unfold stripMarkdownStr subBold subItalic subHeaders subBullets subCode
  rw [subBoldF_id _ _ hstar, subItalicF_id _ _ hstar, subHeadersF_id _ _ hhash,
    subBulletsF_id _ _ _ hbul, subCodeF_id _ _ htick]

/-- C5, counterexample: `_strip_markdown` is not idempotent — on `" - a"`
the first pass only trims (yielding `"- a"`), and the second pass then
removes the now-leading bullet (yielding `"a"`). -/
theorem stripMarkdown_not_idem :
    stripMarkdown (.str (stripMarkdown (.str " - a"))) ≠ stripMarkdown (.str " - a") := by
  decide

/-- C5, amended.  `_strip_markdown` is idempotent on marker-free strings
(no `*`, `#`, `` ` ``, `-`, `•`): on such strings one application reduces
to the final `.strip()`, and stripping is idempotent.  (On strings with
markers idempotence can fail, per the counterexample.) -/
theorem stripMarkdown_idem_markerFree :
    ∀ s : String, markerFree s →
      stripMarkdown (.str (stripMarkdown (.str s))) = stripMarkdown (.str s) := by
  intro s h
  show stripMarkdownStr (stripMarkdownStr s) = stripMarkdownStr s
  rw [stripMarkdownStr_markerFree s h]
  have hmf : markerFree (String.mk (pyStripChars s.data)) := by
    intro c hc
    exact h c (mem_pyStripChars hc)
  rw [stripMarkdownStr_markerFree _ hmf]
  show String.mk (pyStripChars (pyStripChars s.data)) = String.mk (pyStripChars s.data)
  rw [pyStripChars_idem]

/-- Concrete instance of `stripMarkdown_idem_markerFree`. -/
theorem stripMarkdown_idem_markerFree_witness :
    stripMarkdown (.str (stripMarkdown (.str "hello world "))) =
      stripMarkdown (.str "hello world ") :=
  stripMarkdown_idem_markerFree "hello world " (by decide)

/-- C10.  `_strip_markdown` is total on the two input shapes: a string
input yields a result with no leading and no trailing whitespace (the
final `.strip()`), and a non-string input is returned as its `str()`
rendering unchanged — no substitution, no trimming. -/
theorem stripMarkdown_total :
    (∀ (s : String) (c : Char),
      ((stripMarkdown (.str s)).data.head? = some c → isPyWS c = false) ∧
      ((stripMarkdown (.str s)).data.getLast? = some c → isPyWS c = false)) ∧
    (∀ r : String, stripMarkdown (.other r) = r) := by
  refine ⟨fun s c => ⟨fun h => ?_, fun h => ?_⟩, fun r => rfl⟩
  · exact pyStripChars_head h
  · exact pyStripChars_getLast h

/-- Concrete instance of `stripMarkdown_total`: the stripped `" a "` starts
with the non-whitespace `'a'`, and the non-string value `" x "` is returned
verbatim, whitespace kept. -/
theorem stripMarkdown_total_witness :
    isPyWS 'a' = false ∧ stripMarkdown (.other " x ") = " x " :=
  ⟨(stripMarkdown_total.1 " a " 'a').1 (by decide), stripMarkdown_total.2 " x "⟩
